import Mathlib

/-!
Verification of the NVML dynamic-binding layer in `dali/util/nvml_wrap.cc`
(namespace `dali::nvml`).

The file shallowly embeds the loader (`wrapSymbols`, macros `LOAD_SYM` and
`LOAD_SYM_MIN_DRIVER`), the per-operation call shim (macro `FUNC_BODY` and the
`wrapNvml...` wrappers), the capability query `wrapHasCuda11NvmlFunctions`, and
the process-global state (`symbolsLoaded` plus the static function pointers).
We model the build configuration `CUDART_VERSION >= 11000`, under which all
declarations in the source file are compiled.

A function pointer is modelled as `Option Unit` (null versus resolved); the
behaviour of the native library and of the dynamic linker is an explicit
environment `Env`. Mutation of the static globals is explicit state passing on
`NvmlState`. The few collaborators that live outside this translation unit
(`DALI_FAIL`, `DALI_WARN`, `cudaDriverGetVersion`) are modelled from the spec,
as marked on the corresponding definitions.
-/

set_option autoImplicit false

namespace DaliNvml

/-- The two-valued result type of the binding layer (`DALIError_t`).
Modelled from the spec: the Result Code is the two-valued outcome
Success / Error returned by every wrapper; it carries no payload. -/
inductive DALIError_t where
  | DALISuccess
  | DALIError
  deriving DecidableEq, Repr

/-- The native return code of the wrapped library (`nvmlReturn_t`). -/
abbrev NvmlReturn := Nat

/-- The library-defined success sentinel (`NVML_SUCCESS`). -/
def NVML_SUCCESS : NvmlReturn := 0

/-- The operations bound by this translation unit, one per static function
pointer declared in `nvml_wrap.cc` (the `CUDART_VERSION >= 11000` build). -/
inductive Sym where
  | init
  | shutdown
  | deviceGetHandleByPciBusId
  | deviceGetHandleByIndex
  | deviceGetIndex
  | deviceSetCpuAffinity
  | deviceClearCpuAffinity
  | systemGetDriverVersion
  | deviceGetCpuAffinity
  | deviceGetCpuAffinityWithinScope
  | deviceGetBrand
  | deviceGetCount_v2
  | deviceGetHandleByIndex_v2
  | deviceGetCudaComputeCapability
  | errorString
  deriving DecidableEq, Repr

/-- The exported name passed to `dlsym` for each operation. -/
def Sym.exportedName : Sym → String
  | .init => "nvmlInit"
  | .shutdown => "nvmlShutdown"
  | .deviceGetHandleByPciBusId => "nvmlDeviceGetHandleByPciBusId"
  | .deviceGetHandleByIndex => "nvmlDeviceGetHandleByIndex"
  | .deviceGetIndex => "nvmlDeviceGetIndex"
  | .deviceSetCpuAffinity => "nvmlDeviceSetCpuAffinity"
  | .deviceClearCpuAffinity => "nvmlDeviceClearCpuAffinity"
  | .systemGetDriverVersion => "nvmlSystemGetDriverVersion"
  | .deviceGetCpuAffinity => "nvmlDeviceGetCpuAffinity"
  | .deviceGetCpuAffinityWithinScope => "nvmlDeviceGetCpuAffinityWithinScope"
  | .deviceGetBrand => "nvmlDeviceGetBrand"
  | .deviceGetCount_v2 => "nvmlDeviceGetCount_v2"
  | .deviceGetHandleByIndex_v2 => "nvmlDeviceGetHandleByIndex_v2"
  | .deviceGetCudaComputeCapability => "nvmlDeviceGetCudaComputeCapability"
  | .errorString => "nvmlErrorString"

/-- The name of the static function pointer holding each operation, as
produced by the `#INTERNAL_FUNC` stringification inside `FUNC_BODY`. -/
def Sym.internalName : Sym → String
  | .init => "nvmlInternalInit"
  | .shutdown => "nvmlInternalShutdown"
  | .deviceGetHandleByPciBusId => "nvmlInternalDeviceGetHandleByPciBusId"
  | .deviceGetHandleByIndex => "nvmlInternalDeviceGetHandleByIndex"
  | .deviceGetIndex => "nvmlInternalDeviceGetIndex"
  | .deviceSetCpuAffinity => "nvmlInternalDeviceSetCpuAffinity"
  | .deviceClearCpuAffinity => "nvmlInternalDeviceClearCpuAffinity"
  | .systemGetDriverVersion => "nvmlInternalSystemGetDriverVersion"
  | .deviceGetCpuAffinity => "nvmlInternalDeviceGetCpuAffinity"
  | .deviceGetCpuAffinityWithinScope => "nvmlInternalDeviceGetCpuAffinityWithinScope"
  | .deviceGetBrand => "nvmlInternalDeviceGetBrand"
  | .deviceGetCount_v2 => "nvmlInternalDeviceGetCount_v2"
  | .deviceGetHandleByIndex_v2 => "nvmlInternalDeviceGetHandleByIndex_v2"
  | .deviceGetCudaComputeCapability => "nvmlInternalDeviceGetCudaComputeCapability"
  | .errorString => "nvmlInternalErrorString"

/-- The Symbol Table: one field per static function pointer of
`nvml_wrap.cc`; `none` is the null pointer, `some ()` a resolved pointer.
All statics are zero-initialized, hence the table starts all-null. -/
structure SymTable where
  nvmlInternalInit : Option Unit
  nvmlInternalShutdown : Option Unit
  nvmlInternalDeviceGetHandleByPciBusId : Option Unit
  nvmlInternalDeviceGetHandleByIndex : Option Unit
  nvmlInternalDeviceGetIndex : Option Unit
  nvmlInternalDeviceSetCpuAffinity : Option Unit
  nvmlInternalDeviceClearCpuAffinity : Option Unit
  nvmlInternalSystemGetDriverVersion : Option Unit
  nvmlInternalDeviceGetCpuAffinity : Option Unit
  nvmlInternalDeviceGetCpuAffinityWithinScope : Option Unit
  nvmlInternalDeviceGetBrand : Option Unit
  nvmlInternalDeviceGetCount_v2 : Option Unit
  nvmlInternalDeviceGetHandleByIndex_v2 : Option Unit
  nvmlInternalDeviceGetCudaComputeCapability : Option Unit
  nvmlInternalErrorString : Option Unit
  deriving DecidableEq, Repr

/-- Read the function pointer for an operation. -/
def SymTable.get (t : SymTable) : Sym → Option Unit
  | .init => t.nvmlInternalInit
  | .shutdown => t.nvmlInternalShutdown
  | .deviceGetHandleByPciBusId => t.nvmlInternalDeviceGetHandleByPciBusId
  | .deviceGetHandleByIndex => t.nvmlInternalDeviceGetHandleByIndex
  | .deviceGetIndex => t.nvmlInternalDeviceGetIndex
  | .deviceSetCpuAffinity => t.nvmlInternalDeviceSetCpuAffinity
  | .deviceClearCpuAffinity => t.nvmlInternalDeviceClearCpuAffinity
  | .systemGetDriverVersion => t.nvmlInternalSystemGetDriverVersion
  | .deviceGetCpuAffinity => t.nvmlInternalDeviceGetCpuAffinity
  | .deviceGetCpuAffinityWithinScope => t.nvmlInternalDeviceGetCpuAffinityWithinScope
  | .deviceGetBrand => t.nvmlInternalDeviceGetBrand
  | .deviceGetCount_v2 => t.nvmlInternalDeviceGetCount_v2
  | .deviceGetHandleByIndex_v2 => t.nvmlInternalDeviceGetHandleByIndex_v2
  | .deviceGetCudaComputeCapability => t.nvmlInternalDeviceGetCudaComputeCapability
  | .errorString => t.nvmlInternalErrorString

/-- Store a resolved pointer for an operation (the `*cast = tmp` write of
`LOAD_SYM`). -/
def SymTable.set (t : SymTable) : Sym → SymTable
  | .init => { t with nvmlInternalInit := some () }
  | .shutdown => { t with nvmlInternalShutdown := some () }
  | .deviceGetHandleByPciBusId => { t with nvmlInternalDeviceGetHandleByPciBusId := some () }
  | .deviceGetHandleByIndex => { t with nvmlInternalDeviceGetHandleByIndex := some () }
  | .deviceGetIndex => { t with nvmlInternalDeviceGetIndex := some () }
  | .deviceSetCpuAffinity => { t with nvmlInternalDeviceSetCpuAffinity := some () }
  | .deviceClearCpuAffinity => { t with nvmlInternalDeviceClearCpuAffinity := some () }
  | .systemGetDriverVersion => { t with nvmlInternalSystemGetDriverVersion := some () }
  | .deviceGetCpuAffinity => { t with nvmlInternalDeviceGetCpuAffinity := some () }
  | .deviceGetCpuAffinityWithinScope =>
      { t with nvmlInternalDeviceGetCpuAffinityWithinScope := some () }
  | .deviceGetBrand => { t with nvmlInternalDeviceGetBrand := some () }
  | .deviceGetCount_v2 => { t with nvmlInternalDeviceGetCount_v2 := some () }
  | .deviceGetHandleByIndex_v2 => { t with nvmlInternalDeviceGetHandleByIndex_v2 := some () }
  | .deviceGetCudaComputeCapability =>
      { t with nvmlInternalDeviceGetCudaComputeCapability := some () }
  | .errorString => { t with nvmlInternalErrorString := some () }

/-- Clear the pointer for an operation (the `funcptr = nullptr` write of
`LOAD_SYM_MIN_DRIVER`). -/
def SymTable.clear (t : SymTable) : Sym → SymTable
  | .init => { t with nvmlInternalInit := none }
  | .shutdown => { t with nvmlInternalShutdown := none }
  | .deviceGetHandleByPciBusId => { t with nvmlInternalDeviceGetHandleByPciBusId := none }
  | .deviceGetHandleByIndex => { t with nvmlInternalDeviceGetHandleByIndex := none }
  | .deviceGetIndex => { t with nvmlInternalDeviceGetIndex := none }
  | .deviceSetCpuAffinity => { t with nvmlInternalDeviceSetCpuAffinity := none }
  | .deviceClearCpuAffinity => { t with nvmlInternalDeviceClearCpuAffinity := none }
  | .systemGetDriverVersion => { t with nvmlInternalSystemGetDriverVersion := none }
  | .deviceGetCpuAffinity => { t with nvmlInternalDeviceGetCpuAffinity := none }
  | .deviceGetCpuAffinityWithinScope =>
      { t with nvmlInternalDeviceGetCpuAffinityWithinScope := none }
  | .deviceGetBrand => { t with nvmlInternalDeviceGetBrand := none }
  | .deviceGetCount_v2 => { t with nvmlInternalDeviceGetCount_v2 := none }
  | .deviceGetHandleByIndex_v2 => { t with nvmlInternalDeviceGetHandleByIndex_v2 := none }
  | .deviceGetCudaComputeCapability =>
      { t with nvmlInternalDeviceGetCudaComputeCapability := none }
  | .errorString => { t with nvmlInternalErrorString := none }

/-- The all-null Symbol Table (zero-initialized statics). -/
def SymTable.empty : SymTable :=
  ⟨none, none, none, none, none, none, none, none, none, none, none, none, none, none, none⟩

/-- The mutable process-global state of the translation unit:
`int symbolsLoaded = 0` and the static function pointers. -/
structure NvmlState where
  symbolsLoaded : Nat
  table : SymTable
  deriving DecidableEq, Repr

/-- The state at process start: `symbolsLoaded = 0`, all pointers null. -/
def initialState : NvmlState := ⟨0, SymTable.empty⟩

/-- The external world: the dynamic linker and the native library.
`dlopenOk` says whether `dlopen` succeeds on a library name; `dlsymOk`
whether `dlsym` resolves an exported name; `dlerrorMsg` is what `dlerror()`
currently returns; `nativeRet` is the return code the (deterministic stub)
native function behind an exported name produces when invoked; `errStrFn`
is the behaviour of the resolved `nvmlErrorString`; `driverVersion` is what
`cudaDriverGetVersion` reports. -/
structure Env where
  dlopenOk : String → Bool
  dlsymOk : String → Bool
  dlerrorMsg : String
  nativeRet : String → NvmlReturn
  errStrFn : NvmlReturn → String
  driverVersion : Int

/-- `is_driver_sufficient(min_cuda_major, min_cuda_minor)`.
The version query itself is not part of this translation unit.
Modelled from the spec: the driver/runtime version is obtained via an
independent, always-available query (`cudaDriverGetVersion`), here the
`driverVersion` field of the environment. -/
def is_driver_sufficient (env : Env) (min_cuda_major min_cuda_minor : Int) : Bool :=
  env.driverVersion ≥ 1000 * min_cuda_major + 10 * min_cuda_minor

/-- One `LOAD_SYM(handle, symbol, funcptr)` step: resolve via `dlsym` and
store the pointer, or fail with the `DALI_FAIL` message
`"dlsym failed on " + symbol + " - " + dlerror()`. -/
def LOAD_SYM (env : Env) (s : Sym) (t : SymTable) : Except String SymTable :=
  if env.dlsymOk s.exportedName then
    Except.ok (t.set s)
  else
    Except.error ("dlsym failed on " ++ s.exportedName ++ " - " ++ env.dlerrorMsg)

/-- One `LOAD_SYM_MIN_DRIVER(handle, symbol, funcptr, cuda_M, cuda_m)` step:
if the driver-version predicate fails, null the pointer and continue;
otherwise behave like `LOAD_SYM`. This macro is defined in the source but
is never invoked by `wrapSymbols`. -/
def LOAD_SYM_MIN_DRIVER (env : Env) (s : Sym) (cuda_M cuda_m : Int) (t : SymTable) :
    Except String SymTable :=
  if ¬ is_driver_sufficient env cuda_M cuda_m then
    Except.ok (t.clear s)
  else
    LOAD_SYM env s t

/-- The ordered sequence of `LOAD_SYM` invocations in `wrapSymbols`, exactly
as written in the source (`CUDART_VERSION >= 11000` build): the ten
always-present symbols, then the five CUDA-11 symbols, all via `LOAD_SYM`. -/
def loadOrder : List Sym :=
  [ .init, .shutdown, .deviceGetHandleByPciBusId, .deviceGetHandleByIndex,
    .deviceGetIndex, .deviceSetCpuAffinity, .deviceClearCpuAffinity,
    .systemGetDriverVersion, .deviceGetCpuAffinity, .errorString,
    .deviceGetCpuAffinityWithinScope, .deviceGetBrand, .deviceGetCount_v2,
    .deviceGetHandleByIndex_v2, .deviceGetCudaComputeCapability ]

/-- Run the `LOAD_SYM` sequence left to right. On the first failure the
sequence stops; the writes performed so far remain in the table (the C
statics are mutated in place and `DALI_FAIL` does not undo them). Also
returns the list of exported names actually passed to `dlsym`. -/
def loadSyms (env : Env) : List Sym → SymTable → Except String Unit × SymTable × List String
  | [], t => (Except.ok (), t, [])
  | s :: rest, t =>
    match LOAD_SYM env s t with
    | Except.ok t2 =>
        let r := loadSyms env rest t2
        (r.1, r.2.1, s.exportedName :: r.2.2)
    | Except.error msg => (Except.error msg, t, [s.exportedName])

/-- What one call to `wrapSymbols` reports: the returned `DALIError_t`, the
`DALI_FAIL` message if the load aborted, and the `dlopen` / `dlsym` calls the
pass actually made (empty on the idempotent short-circuit).
Modelled from the spec: `DALI_FAIL` is a hard abort-style failure whose exact
sink is the embedding application; we record it as an Error result carrying
the message. -/
structure LoadResult where
  result : DALIError_t
  message : Option String
  dlopenAttempts : List String
  dlsymAttempts : List String
  deriving DecidableEq, Repr

/-- `wrapSymbols()`: the loader. Short-circuits on `symbolsLoaded`; opens
`libnvidia-ml.so` then `libnvidia-ml.so.1`; on double failure aborts with
the fixed message `"Failed to open libnvidia-ml.so[.1]"`; then performs the
`LOAD_SYM` sequence; on success sets `symbolsLoaded = 1`. -/
def wrapSymbols (env : Env) (st : NvmlState) : LoadResult × NvmlState :=
  if st.symbolsLoaded ≠ 0 then
    (⟨DALIError_t.DALISuccess, none, [], []⟩, st)
  else
    if env.dlopenOk "libnvidia-ml.so" then
      match loadSyms env loadOrder st.table with
      | (Except.ok _, t, syms) =>
          (⟨DALIError_t.DALISuccess, none, ["libnvidia-ml.so"], syms⟩, ⟨1, t⟩)
      | (Except.error msg, t, syms) =>
          (⟨DALIError_t.DALIError, some msg, ["libnvidia-ml.so"], syms⟩, ⟨st.symbolsLoaded, t⟩)
    else
      if env.dlopenOk "libnvidia-ml.so.1" then
        match loadSyms env loadOrder st.table with
        | (Except.ok _, t, syms) =>
            (⟨DALIError_t.DALISuccess, none, ["libnvidia-ml.so", "libnvidia-ml.so.1"], syms⟩,
             ⟨1, t⟩)
        | (Except.error msg, t, syms) =>
            (⟨DALIError_t.DALIError, some msg, ["libnvidia-ml.so", "libnvidia-ml.so.1"], syms⟩,
             ⟨st.symbolsLoaded, t⟩)
      else
        (⟨DALIError_t.DALIError, some "Failed to open libnvidia-ml.so[.1]",
          ["libnvidia-ml.so", "libnvidia-ml.so.1"], []⟩, st)

/-- `wrapHasCuda11NvmlFunctions()`: the capability query, exactly the
conjunction written in the source (`CUDART_VERSION >= 11000` branch). Note
it tests four pointers; `nvmlInternalDeviceGetCpuAffinityWithinScope` is not
among them. -/
def wrapHasCuda11NvmlFunctions (t : SymTable) : Bool :=
  (t.nvmlInternalDeviceGetCount_v2).isSome &&
  (t.nvmlInternalDeviceGetHandleByIndex_v2).isSome &&
  (t.nvmlInternalDeviceGetCudaComputeCapability).isSome &&
  (t.nvmlInternalDeviceGetBrand).isSome

/-- The five version-gated CUDA-11 symbols: the static pointers declared
inside the `CUDART_VERSION >= 11000` block of the source. -/
def cuda11GatedSyms : List Sym :=
  [ .deviceGetCpuAffinityWithinScope, .deviceGetBrand, .deviceGetCount_v2,
    .deviceGetHandleByIndex_v2, .deviceGetCudaComputeCapability ]

/-- What one wrapper call does: the returned `DALIError_t`, whether the
native function was invoked, the `DALI_WARN` diagnostic if one was emitted,
and whether the call dereferenced a null function pointer while building
the diagnostic (undefined behaviour in the C source).
Modelled from the spec: `DALI_WARN` is a soft warning whose sink is the
embedding application; we record the diagnostic string it is given. -/
structure CallResult where
  result : DALIError_t
  nativeInvoked : Bool
  diagnostic : Option String
  crashed : Bool
  deriving DecidableEq, Repr

/-- The `FUNC_BODY(INTERNAL_FUNC, ARGS...)` macro: null pointer gives an
immediate Error with no call and no warning; otherwise the native function
runs and a non-`NVML_SUCCESS` code triggers
`DALI_WARN(#INTERNAL_FUNC "(...) failed: " + nvmlInternalErrorString(ret))`.
The source calls `nvmlInternalErrorString` unconditionally on this path; if
that pointer is null the call is a null dereference, recorded as `crashed`.
Arguments are forwarded verbatim and never inspected by the shim, so they
are elided here. -/
def FUNC_BODY (env : Env) (t : SymTable) (s : Sym) : CallResult :=
  match t.get s with
  | none => ⟨DALIError_t.DALIError, false, none, false⟩
  | some _ =>
    let ret := env.nativeRet s.exportedName
    if ret = NVML_SUCCESS then
      ⟨DALIError_t.DALISuccess, true, none, false⟩
    else
      match t.get Sym.errorString with
      | some _ =>
          ⟨DALIError_t.DALIError, true,
           some (s.internalName ++ "(...) failed: " ++ env.errStrFn ret), false⟩
      | none => ⟨DALIError_t.DALIError, true, none, true⟩

/-- `wrapNvmlInit()` -/
def wrapNvmlInit (env : Env) (t : SymTable) : CallResult := FUNC_BODY env t .init

/-- `wrapNvmlShutdown()` -/
def wrapNvmlShutdown (env : Env) (t : SymTable) : CallResult := FUNC_BODY env t .shutdown

/-- `wrapNvmlDeviceGetHandleByPciBusId(...)` -/
def wrapNvmlDeviceGetHandleByPciBusId (env : Env) (t : SymTable) : CallResult :=
  FUNC_BODY env t .deviceGetHandleByPciBusId

/-- `wrapNvmlDeviceGetHandleByIndex(...)` -/
def wrapNvmlDeviceGetHandleByIndex (env : Env) (t : SymTable) : CallResult :=
  FUNC_BODY env t .deviceGetHandleByIndex

/-- `wrapNvmlDeviceGetIndex(...)` -/
def wrapNvmlDeviceGetIndex (env : Env) (t : SymTable) : CallResult :=
  FUNC_BODY env t .deviceGetIndex

/-- `wrapNvmlDeviceSetCpuAffinity(...)` -/
def wrapNvmlDeviceSetCpuAffinity (env : Env) (t : SymTable) : CallResult :=
  FUNC_BODY env t .deviceSetCpuAffinity

/-- `wrapNvmlDeviceClearCpuAffinity(...)` -/
def wrapNvmlDeviceClearCpuAffinity (env : Env) (t : SymTable) : CallResult :=
  FUNC_BODY env t .deviceClearCpuAffinity

/-- `wrapNvmlSystemGetDriverVersion(...)` -/
def wrapNvmlSystemGetDriverVersion (env : Env) (t : SymTable) : CallResult :=
  FUNC_BODY env t .systemGetDriverVersion

/-- `wrapNvmlDeviceGetCpuAffinity(...)` -/
def wrapNvmlDeviceGetCpuAffinity (env : Env) (t : SymTable) : CallResult :=
  FUNC_BODY env t .deviceGetCpuAffinity

/-- `wrapNvmlDeviceGetCpuAffinityWithinScope(...)` -/
def wrapNvmlDeviceGetCpuAffinityWithinScope (env : Env) (t : SymTable) : CallResult :=
  FUNC_BODY env t .deviceGetCpuAffinityWithinScope

/-- `wrapNvmlDeviceGetBrand(...)` -/
def wrapNvmlDeviceGetBrand (env : Env) (t : SymTable) : CallResult :=
  FUNC_BODY env t .deviceGetBrand

/-- `wrapNvmlDeviceGetCount_v2(...)` -/
def wrapNvmlDeviceGetCount_v2 (env : Env) (t : SymTable) : CallResult :=
  FUNC_BODY env t .deviceGetCount_v2

/-- `wrapNvmlDeviceGetHandleByIndex_v2(...)` -/
def wrapNvmlDeviceGetHandleByIndex_v2 (env : Env) (t : SymTable) : CallResult :=
  FUNC_BODY env t .deviceGetHandleByIndex_v2

/-- `wrapNvmlDeviceGetCudaComputeCapability(...)` -/
def wrapNvmlDeviceGetCudaComputeCapability (env : Env) (t : SymTable) : CallResult :=
  FUNC_BODY env t .deviceGetCudaComputeCapability

end DaliNvml

namespace DaliNvml

/-! ### Helper lemmas and concrete environments -/

theorem SymTable.get_set (t : SymTable) (x s : Sym) :
    (t.set x).get s = if s = x then some () else t.get s := by
  cases x <;> cases s <;> simp [SymTable.set, SymTable.get]

theorem loadSyms_keeps_resolved (env : Env) (l : List Sym) :
    ∀ (t : SymTable) (s : Sym), (t.get s).isSome = true →
      (((loadSyms env l t).2.1).get s).isSome = true := by
  induction l with
  | nil => intro t s h; simpa [loadSyms] using h
  | cons x rest ih =>
      intro t s h
      by_cases hx : env.dlsymOk x.exportedName
      · have h2 : ((t.set x).get s).isSome = true := by
          rw [SymTable.get_set]
          split
          · rfl
          · exact h
        simpa [loadSyms, LOAD_SYM, hx] using ih (t.set x) s h2
      · simpa [loadSyms, LOAD_SYM, hx] using h

theorem loadSyms_driverVersion_irrelevant (env : Env) (v : Int) (l : List Sym) :
    ∀ t : SymTable, loadSyms { env with driverVersion := v } l t = loadSyms env l t := by
  induction l with
  | nil => intro t; rfl
  | cons x rest ih =>
      intro t
      have hL : LOAD_SYM { env with driverVersion := v } x t = LOAD_SYM env x t := rfl
      simp only [loadSyms, hL, ih]

/-- An environment in which every candidate library opens, every symbol
resolves, and every native call reports `NVML_SUCCESS`. -/
def envAllOk : Env :=
  ⟨fun _ => true, fun _ => true, "no error", fun _ => 0, fun _ => "Unknown Error", 11000⟩

/-- Like `envAllOk`, but every native call reports the failing code 3. -/
def envFail : Env :=
  ⟨fun _ => true, fun _ => true, "no error", fun _ => 3, fun _ => "Unknown Error", 11000⟩

/-- Everything resolves except `nvmlShutdown` (the second `LOAD_SYM`). -/
def envNoShutdown : Env :=
  ⟨fun _ => true, fun nm => nm == "nvmlInit", "symbol missing",
   fun _ => 0, fun _ => "Unknown Error", 11000⟩

/-- Everything resolves except `nvmlErrorString`; failing native calls. -/
def envNoErrStr : Env :=
  ⟨fun _ => true, fun nm => nm != "nvmlErrorString", "symbol missing",
   fun _ => 3, fun _ => "Unknown Error", 11000⟩

/-- A stub library exporting every symbol except `nvmlDeviceGetBrand`, with
all native calls returning the success sentinel; driver version too old for
the CUDA-11 tier (`cudaDriverGetVersion` reports 0). -/
def envOldDriver : Env :=
  ⟨fun _ => true, fun nm => nm != "nvmlDeviceGetBrand", "symbol missing",
   fun _ => 0, fun _ => "Unknown Error", 0⟩

/-- A stub library exporting every symbol except `nvmlDeviceGetBrand`, with
all native calls returning the success sentinel. -/
def envStub : Env :=
  ⟨fun _ => true, fun nm => nm != "nvmlDeviceGetBrand", "symbol missing",
   fun _ => 0, fun _ => "Unknown Error", 11000⟩

/-- No candidate library name opens; `dlerror` reports a loader message. -/
def envNoLib : Env :=
  ⟨fun _ => false, fun _ => true, "qqq loader message", fun _ => 0,
   fun _ => "Unknown Error", 11000⟩

/-- The fully populated Symbol Table. -/
def SymTable.full : SymTable :=
  ⟨some (), some (), some (), some (), some (), some (), some (), some (),
   some (), some (), some (), some (), some (), some (), some ()⟩

/-- A table in which only `nvmlInternalInit` is resolved (in particular the
error-to-string pointer is null), as a failed load pass can leave behind. -/
def tableOnlyInit : SymTable := SymTable.empty.set Sym.init

/-- A table in which the four pointers tested by `wrapHasCuda11NvmlFunctions`
are resolved but `nvmlInternalDeviceGetCpuAffinityWithinScope` is null. -/
def tableFourOfFive : SymTable :=
  (((SymTable.empty.set Sym.deviceGetBrand).set Sym.deviceGetCount_v2).set
      Sym.deviceGetHandleByIndex_v2).set Sym.deviceGetCudaComputeCapability

end DaliNvml

namespace DaliNvml

/-! ### Claim theorems -/

/-- C1: For every wrapper operation, if the Symbol Table entry for that
operation is the null sentinel, the wrapper (`FUNC_BODY`) returns Error
without invoking any native function and without emitting a diagnostic; in
particular, in the initial state (before any successful load) every wrapper
returns Error rather than dereferencing a null pointer. -/
theorem funcBody_null_entry_errors (env : Env) (t : SymTable) (s : Sym)
    (h : t.get s = none) :
    FUNC_BODY env t s = ⟨DALIError_t.DALIError, false, none, false⟩ ∧
    FUNC_BODY env initialState.table s = ⟨DALIError_t.DALIError, false, none, false⟩ := by
  constructor
  · simp [FUNC_BODY, h]
  · have h0 : initialState.table.get s = none := by cases s <;> rfl
    simp [FUNC_BODY, h0]

/-- Witness for C1 at the initial (all-null) table and the init wrapper. -/
theorem funcBody_null_entry_errors_witness :
    FUNC_BODY envAllOk SymTable.empty Sym.init =
      ⟨DALIError_t.DALIError, false, none, false⟩ ∧
    FUNC_BODY envAllOk initialState.table Sym.init =
      ⟨DALIError_t.DALIError, false, none, false⟩ :=
  funcBody_null_entry_errors envAllOk SymTable.empty Sym.init rfl

/-- C2: For a wrapper whose table entry is resolved (with the error-to-string
entry resolved, as after any successful load), the wrapper returns Success
iff the native call returns `NVML_SUCCESS`; any other native code yields
Error together with a diagnostic built from the operation name and the
string the error-to-string operation produces on the failing code. -/
theorem funcBody_success_iff_native_success (env : Env) (t : SymTable) (s : Sym)
    (hs : t.get s = some ()) (he : t.get Sym.errorString = some ()) :
    ((FUNC_BODY env t s).result = DALIError_t.DALISuccess ↔
      env.nativeRet s.exportedName = NVML_SUCCESS) ∧
    (env.nativeRet s.exportedName ≠ NVML_SUCCESS →
      (FUNC_BODY env t s).result = DALIError_t.DALIError ∧
      (FUNC_BODY env t s).diagnostic =
        some (s.internalName ++ "(...) failed: " ++
              env.errStrFn (env.nativeRet s.exportedName))) := by
  by_cases hr : env.nativeRet s.exportedName = NVML_SUCCESS
  · simp [FUNC_BODY, hs, he, hr]
  · simp [FUNC_BODY, hs, he, hr]

/-- Witness for C2 on the full table with a failing native stub. -/
theorem funcBody_success_iff_native_success_witness :
    ((FUNC_BODY envFail SymTable.full Sym.init).result = DALIError_t.DALISuccess ↔
      envFail.nativeRet (Sym.exportedName Sym.init) = NVML_SUCCESS) ∧
    (envFail.nativeRet (Sym.exportedName Sym.init) ≠ NVML_SUCCESS →
      (FUNC_BODY envFail SymTable.full Sym.init).result = DALIError_t.DALIError ∧
      (FUNC_BODY envFail SymTable.full Sym.init).diagnostic =
        some (Sym.internalName Sym.init ++ "(...) failed: " ++
              envFail.errStrFn (envFail.nativeRet (Sym.exportedName Sym.init)))) :=
  funcBody_success_iff_native_success envFail SymTable.full Sym.init rfl rfl

end DaliNvml

namespace DaliNvml

/-- C3: whenever `wrapSymbols` returns Success, the load flag is set, and
every subsequent call (under any environment) returns Success immediately
with no `dlopen` or `dlsym` activity and with the state, in particular the
Symbol Table, unchanged. -/
theorem wrapSymbols_idempotent (env : Env) (st : NvmlState) (r : LoadResult)
    (st2 : NvmlState) (h : wrapSymbols env st = (r, st2))
    (hs : r.result = DALIError_t.DALISuccess) :
    st2.symbolsLoaded ≠ 0 ∧
    ∀ env2 : Env, wrapSymbols env2 st2 =
      (⟨DALIError_t.DALISuccess, none, [], []⟩, st2) := by
  have key : st2.symbolsLoaded ≠ 0 := by
    unfold wrapSymbols at h
    split at h
    · injection h with hA hB
      subst hB
      assumption
    · split at h
      · split at h
        · injection h with hA hB
          subst hB
          simp
        · injection h with hA hB
          subst hA
          simp at hs
      · split at h
        · split at h
          · injection h with hA hB
            subst hB
            simp
          · injection h with hA hB
            subst hA
            simp at hs
        · injection h with hA hB
          subst hA
          simp at hs
  refine ⟨key, ?_⟩
  intro env2
  simp [wrapSymbols, key]

/-- Witness for C3: after a successful load from the all-ok environment, a
second call is an idempotent no-op. -/
theorem wrapSymbols_idempotent_witness :
    (wrapSymbols envAllOk initialState).2.symbolsLoaded ≠ 0 ∧
    ∀ env2 : Env, wrapSymbols env2 (wrapSymbols envAllOk initialState).2 =
      (⟨DALIError_t.DALISuccess, none, [], []⟩,
       (wrapSymbols envAllOk initialState).2) :=
  wrapSymbols_idempotent envAllOk initialState
    (wrapSymbols envAllOk initialState).1 (wrapSymbols envAllOk initialState).2
    rfl rfl

/-- C4 counterexample: with a library whose `dlsym` resolves only `nvmlInit`
(the second `LOAD_SYM`, on `nvmlShutdown`, fails), `wrapSymbols` returns
Error, yet the table entry resolved during that failed pass is retained,
not discarded. -/
theorem wrapSymbols_fail_retains_entry_cex :
    (wrapSymbols envNoShutdown initialState).1.result = DALIError_t.DALIError ∧
    ((wrapSymbols envNoShutdown initialState).2.table.get Sym.init) = some () := by
  constructor <;> rfl

/-- C4 (amended): a failed `wrapSymbols` leaves the load flag unchanged (so
the table is still treated as not loaded), but it does not discard partial
resolution results: every entry that was resolved stays resolved. -/
theorem wrapSymbols_fail_preserves (env : Env) (st : NvmlState) (r : LoadResult)
    (st2 : NvmlState) (h : wrapSymbols env st = (r, st2))
    (he : r.result = DALIError_t.DALIError) :
    st2.symbolsLoaded = st.symbolsLoaded ∧
    ∀ s : Sym, (st.table.get s).isSome = true →
      (st2.table.get s).isSome = true := by
  unfold wrapSymbols at h
  split at h
  · injection h with hA hB
    subst hA
    simp at he
  · split at h
    · split at h
      · injection h with hA hB
        subst hA
        simp at he
      · rename_i msg t syms heq
        injection h with hA hB
        subst hB
        refine ⟨rfl, ?_⟩
        intro s hsome
        have hmono := loadSyms_keeps_resolved env loadOrder st.table s hsome
        rw [heq] at hmono
        simpa using hmono
    · split at h
      · split at h
        · injection h with hA hB
          subst hA
          simp at he
        · rename_i msg t syms heq
          injection h with hA hB
          subst hB
          refine ⟨rfl, ?_⟩
          intro s hsome
          have hmono := loadSyms_keeps_resolved env loadOrder st.table s hsome
          rw [heq] at hmono
          simpa using hmono
      · injection h with hA hB
        subst hB
        exact ⟨rfl, fun s hsome => hsome⟩

/-- Witness for C4 at the concrete failing environment. -/
theorem wrapSymbols_fail_preserves_witness :
    (wrapSymbols envNoShutdown initialState).2.symbolsLoaded =
      initialState.symbolsLoaded ∧
    ∀ s : Sym, (initialState.table.get s).isSome = true →
      ((wrapSymbols envNoShutdown initialState).2.table.get s).isSome = true :=
  wrapSymbols_fail_preserves envNoShutdown initialState
    (wrapSymbols envNoShutdown initialState).1
    (wrapSymbols envNoShutdown initialState).2 rfl rfl

end DaliNvml

namespace DaliNvml

/-- C5 counterexample: with a driver too old for the CUDA-11 tier (the
version query reports 0, so the minimum-driver predicate for CUDA 11.0 is
false) and a library lacking `nvmlDeviceGetBrand`, the claim predicts the
entry is nulled and loading continues without error; instead `wrapSymbols`
aborts with a `dlsym` failure, because the predicate is never consulted. -/
theorem wrapSymbols_gated_sym_fatal_cex :
    is_driver_sufficient envOldDriver 11 0 = false ∧
    (wrapSymbols envOldDriver initialState).1.result = DALIError_t.DALIError ∧
    (wrapSymbols envOldDriver initialState).1.message =
      some "dlsym failed on nvmlDeviceGetBrand - symbol missing" := by
  refine ⟨by decide, rfl, rfl⟩

/-- C5 (amended): `wrapSymbols` never evaluates the minimum-driver-version
predicate: the version-gated macro `LOAD_SYM_MIN_DRIVER` is defined but
unused, every CUDA-11 symbol is resolved by the unconditional `LOAD_SYM`,
and consequently the entire outcome of the loader is independent of the
driver version the environment reports. -/
theorem wrapSymbols_ignores_driverVersion (env : Env) (v : Int) (st : NvmlState) :
    wrapSymbols { env with driverVersion := v } st = wrapSymbols env st := by
  have h1 := loadSyms_driverVersion_irrelevant env v loadOrder st.table
  simp only [wrapSymbols, h1]

/-- C6 counterexample: with a stub library exporting `nvmlInit` (whose
native call returns the success sentinel) but omitting `nvmlDeviceGetBrand`,
`EnsureLoaded` (`wrapSymbols`) does not succeed as the claim states:
`nvmlDeviceGetBrand` is resolved by the unconditional `LOAD_SYM`, so the
load aborts with a `dlsym` failure. -/
theorem wrapSymbols_stub_noBrand_fails_cex :
    (wrapSymbols envStub initialState).1.result = DALIError_t.DALIError ∧
    (wrapSymbols envStub initialState).1.message =
      some "dlsym failed on nvmlDeviceGetBrand - symbol missing" := by
  constructor <;> rfl

/-- C6 (amended): with that stub the load fails rather than succeeds; on
the state it leaves behind, `wrapHasCuda11NvmlFunctions` returns false,
`wrapNvmlInit` returns Success, and `wrapNvmlDeviceGetBrand` returns Error
without invoking the stub. -/
theorem wrapSymbols_stub_noBrand_behaviour :
    wrapHasCuda11NvmlFunctions (wrapSymbols envStub initialState).2.table = false ∧
    wrapNvmlInit envStub (wrapSymbols envStub initialState).2.table =
      ⟨DALIError_t.DALISuccess, true, none, false⟩ ∧
    wrapNvmlDeviceGetBrand envStub (wrapSymbols envStub initialState).2.table =
      ⟨DALIError_t.DALIError, false, none, false⟩ := by
  refine ⟨rfl, rfl, rfl⟩

/-- C7 counterexample: a table holding the four pointers the query tests
but with the fifth version-gated CUDA-11 symbol
(`nvmlInternalDeviceGetCpuAffinityWithinScope`) null makes
`wrapHasCuda11NvmlFunctions` return true although not every symbol of the
version-gated CUDA-11 group is non-null. -/
theorem hasCuda11_ignores_withinScope_cex :
    wrapHasCuda11NvmlFunctions tableFourOfFive = true ∧
    cuda11GatedSyms.all (fun s => (tableFourOfFive.get s).isSome) = false := by
  constructor <;> rfl

/-- C7 (amended): `wrapHasCuda11NvmlFunctions` returns true iff the four
pointers `deviceGetCount_v2`, `deviceGetHandleByIndex_v2`,
`deviceGetCudaComputeCapability` and `deviceGetBrand` are all non-null; the
fifth version-gated CUDA-11 symbol, `deviceGetCpuAffinityWithinScope`, is
never consulted. -/
theorem hasCuda11_eq_four_pointers (t : SymTable) :
    wrapHasCuda11NvmlFunctions t =
      ((t.get Sym.deviceGetCount_v2).isSome &&
       (t.get Sym.deviceGetHandleByIndex_v2).isSome &&
       (t.get Sym.deviceGetCudaComputeCapability).isSome &&
       (t.get Sym.deviceGetBrand).isSome) ∧
    ∀ u : Option Unit,
      wrapHasCuda11NvmlFunctions
        { t with nvmlInternalDeviceGetCpuAffinityWithinScope := u } =
      wrapHasCuda11NvmlFunctions t :=
  ⟨rfl, fun _ => rfl⟩

/-- C8 counterexample: with only `nvmlInternalInit` resolved (a state a
failed load pass can produce) and a failing native call, the
failure-diagnostic path calls the null `nvmlInternalErrorString` pointer:
the model records a null dereference, and no generic diagnostic string is
produced. -/
theorem funcBody_null_errString_crash_cex :
    (FUNC_BODY envFail tableOnlyInit Sym.init).crashed = true ∧
    (FUNC_BODY envFail tableOnlyInit Sym.init).diagnostic = none := by
  constructor <;> rfl

/-- C8 (amended): when a wrapper with a resolved entry sees a failing
native call while the error-to-string entry is null, the failure path
dereferences that null pointer and emits no diagnostic (the source calls
`nvmlInternalErrorString` unconditionally, with no generic fallback); such
a table is reachable, e.g. by a load pass that resolves `nvmlInit` and then
fails at the `nvmlErrorString` resolution. -/
theorem funcBody_null_errString_crashes (env : Env) (t : SymTable) (s : Sym)
    (h1 : t.get s = some ()) (h2 : t.get Sym.errorString = none)
    (h3 : env.nativeRet s.exportedName ≠ NVML_SUCCESS) :
    (FUNC_BODY env t s).crashed = true ∧
    (FUNC_BODY env t s).diagnostic = none ∧
    (wrapSymbols envNoErrStr initialState).1.result = DALIError_t.DALIError ∧
    (wrapSymbols envNoErrStr initialState).2.table.get Sym.init = some () ∧
    (wrapSymbols envNoErrStr initialState).2.table.get Sym.errorString = none := by
  refine ⟨?_, ?_, rfl, rfl, rfl⟩ <;> simp [FUNC_BODY, h1, h2, h3]

/-- Witness for C8 at the concrete crash state. -/
theorem funcBody_null_errString_crashes_witness :
    (FUNC_BODY envFail tableOnlyInit Sym.init).crashed = true ∧
    (FUNC_BODY envFail tableOnlyInit Sym.init).diagnostic = none ∧
    (wrapSymbols envNoErrStr initialState).1.result = DALIError_t.DALIError ∧
    (wrapSymbols envNoErrStr initialState).2.table.get Sym.init = some () ∧
    (wrapSymbols envNoErrStr initialState).2.table.get Sym.errorString = none :=
  funcBody_null_errString_crashes envFail tableOnlyInit Sym.init rfl rfl
    (by decide)

/-- C9 counterexample: when no candidate library opens, the failure message
is the fixed string `"Failed to open libnvidia-ml.so[.1]"`; the underlying
loader error string (`dlerror`, here `"qqq loader message"`) is not part of
it, contrary to the claim. -/
theorem wrapSymbols_noLib_message_cex :
    (wrapSymbols envNoLib initialState).1.message =
      some "Failed to open libnvidia-ml.so[.1]" ∧
    ¬ List.IsInfix envNoLib.dlerrorMsg.data
        "Failed to open libnvidia-ml.so[.1]".data := by
  refine ⟨rfl, by decide⟩

/-- C9 (amended): `wrapSymbols` attempts the primary name
`libnvidia-ml.so` and then the ABI-versioned fallback `libnvidia-ml.so.1`;
if both fail it returns Error with the fixed message
`"Failed to open libnvidia-ml.so[.1]"`, which does not incorporate the
loader error string, and leaves the state unchanged. -/
theorem wrapSymbols_noLib_fixed_message (env : Env) (st : NvmlState)
    (h0 : st.symbolsLoaded = 0)
    (h1 : env.dlopenOk "libnvidia-ml.so" = false)
    (h2 : env.dlopenOk "libnvidia-ml.so.1" = false) :
    wrapSymbols env st =
      (⟨DALIError_t.DALIError, some "Failed to open libnvidia-ml.so[.1]",
        ["libnvidia-ml.so", "libnvidia-ml.so.1"], []⟩, st) := by
  simp [wrapSymbols, h0, h1, h2]

/-- Witness for C9 at the concrete no-library environment. -/
theorem wrapSymbols_noLib_fixed_message_witness :
    wrapSymbols envNoLib initialState =
      (⟨DALIError_t.DALIError, some "Failed to open libnvidia-ml.so[.1]",
        ["libnvidia-ml.so", "libnvidia-ml.so.1"], []⟩, initialState) :=
  wrapSymbols_noLib_fixed_message envNoLib initialState rfl rfl rfl

end DaliNvml
